/-
Verification of the element-memory / progress-computation core of the
`acomp_obras_metro` repository (service `mss-ai`).

The Python services under `app/services/` are shallowly embedded here:
  * `element_memory_service.py`  — `ElementLifecycle.classify`,
    `ElementMemoryService.get_or_create_memory`, `update_memory`,
    `process_analysis_with_memory`;
  * `progress_calculator.py`     — `ProgressCalculator.calculate_progress_metrics`,
    `compute_progress_report`, `compute_visual_built`;
  * `geometric_validator.py`     — `GeometricValidator.validate_elements`
    and its helper rules.

Modelling conventions:
  * the DynamoDB table is a list of `ProjectElementMemory` records,
    `get` is `List.find?` on `memory_id`, `save` is replace-or-append;
  * Python dicts keyed by strings are association lists preserving
    insertion order; `dict.get(k, d)` is `Option.getD`;
  * visible counts are `Nat` (the service receives cardinalities);
  * Python floats are `ℚ`;
  * a Python `KeyError` raised by `issue["element_type"]` is the
    `Except.error` branch of the validator.
-/
import Mathlib

namespace MssAi

/-- Python `str.lower()` (the element-type vocabulary is ASCII); defined by
structural recursion over the character list so that proofs can evaluate it. -/
def strToLower (s : String) : String := ⟨s.data.map Char.toLower⟩

/-! ### `ElementLifecycle` (element_memory_service.py, lines 16-50) -/

def ElementLifecycle.PERMANENT : String := "permanent"
def ElementLifecycle.TEMPORARY : String := "temporary"
def ElementLifecycle.FINISHING : String := "finishing"
def ElementLifecycle.UNKNOWN : String := "unknown"

def permanent_types : List String :=
  ["column", "beam", "slab", "foundation", "roof", "wall", "structure", "footing", "pile"]

def temporary_types : List String :=
  ["scaffold", "formwork", "equipment", "fence", "barrier", "support", "temporary"]

def finishing_types : List String :=
  ["door", "window", "covering", "railing", "stair", "curtainwall", "panel", "floor"]

/-- Embeds `ElementLifecycle.classify`: case-insensitive membership lookup. -/
def ElementLifecycle.classify (element_type : String) : String :=
  let l := strToLower element_type
  if l ∈ permanent_types then ElementLifecycle.PERMANENT
  else if l ∈ temporary_types then ElementLifecycle.TEMPORARY
  else if l ∈ finishing_types then ElementLifecycle.FINISHING
  else ElementLifecycle.UNKNOWN

/-! ### `ElementStatus` (element_memory_service.py, lines 53-58) -/

def ElementStatus.VISIBLE : String := "visible"
def ElementStatus.HIDDEN : String := "hidden"
def ElementStatus.REMOVED : String := "removed"

/-! ### `ProjectElementMemory` record (db model `dynamodb.py`, lines 162-202) -/

structure ProjectElementMemory where
  memory_id : String
  project_id : String
  element_type : String
  lifecycle : String
  first_detected_at : String
  last_seen_at : String
  max_count_seen : Nat
  current_count : Nat
  current_status : String
  times_detected : Nat
  times_hidden : Nat
  confidence_level : String
  likely_covered_by : List String := []
  notes : Option String := none
deriving Repr, DecidableEq

/-- The table of memory records (DynamoDB, keyed by `memory_id`). -/
abbrev Store := List ProjectElementMemory

/-- Memory id format: project id, a hash sign, and the lowercased element type. -/
def memKey (project_id element_type : String) : String :=
  project_id ++ "#" ++ strToLower element_type

/-- Embeds `ProjectElementMemory.get(memory_id)`. -/
def getMemory (store : Store) (key : String) : Option ProjectElementMemory :=
  store.find? (fun r => r.memory_id == key)

/-- Embeds `memory.save()`: replace the record with the same `memory_id`, else append. -/
def saveMemory (store : Store) (m : ProjectElementMemory) : Store :=
  if store.any (fun r => r.memory_id == m.memory_id) then
    store.map (fun r => if r.memory_id == m.memory_id then m else r)
  else
    store ++ [m]

/-- The record built by the `DoesNotExist` branch of `get_or_create_memory`. -/
def newMemory (project_id element_type : String) (count : Nat) (timestamp : String) :
    ProjectElementMemory :=
  { memory_id := memKey project_id element_type
    project_id := project_id
    element_type := strToLower element_type
    lifecycle := ElementLifecycle.classify element_type
    first_detected_at := timestamp
    last_seen_at := timestamp
    max_count_seen := count
    current_count := count
    current_status := ElementStatus.VISIBLE
    times_detected := 1
    times_hidden := 0
    confidence_level := "medium" }

/-- Embeds `ElementMemoryService.get_or_create_memory` (lines 67-100); returns the
record and the store after the possible `save`. -/
def get_or_create_memory (store : Store) (project_id element_type : String)
    (count : Nat) (timestamp : String) : ProjectElementMemory × Store :=
  match getMemory store (memKey project_id element_type) with
  | some memory => (memory, store)
  | none =>
      let memory := newMemory project_id element_type count timestamp
      (memory, saveMemory store memory)

/-- The mutation block of `update_memory` (lines 117-152): counter updates and
the lifecycle-driven status logic. -/
def applyUpdate (memory : ProjectElementMemory) (current_count : Nat)
    (timestamp : String) (covering_elements : Option (List String)) :
    ProjectElementMemory :=
  if current_count > 0 then
    { memory with
        last_seen_at := timestamp
        times_detected := memory.times_detected + 1
        max_count_seen := max memory.max_count_seen current_count
        current_count := current_count
        current_status := ElementStatus.VISIBLE }
  else
    let memory := { memory with times_hidden := memory.times_hidden + 1 }
    if memory.lifecycle = ElementLifecycle.PERMANENT then
      let memory := { memory with current_status := ElementStatus.HIDDEN }
      match covering_elements with
      | some ce =>
          if ce ≠ [] then
            { memory with
                likely_covered_by := ce
                confidence_level := "high"
                notes := some ("Provavelmente coberto por " ++ String.intercalate ", " ce) }
          else
            { memory with
                confidence_level := "medium"
                notes := some "Não visível mas estrutura permanente mantida" }
      | none =>
          { memory with
              confidence_level := "medium"
              notes := some "Não visível mas estrutura permanente mantida" }
    else if memory.lifecycle = ElementLifecycle.TEMPORARY then
      { memory with
          current_status := ElementStatus.REMOVED
          current_count := 0
          notes := some "Elemento temporário removido (esperado)" }
    else
      { memory with
          current_status := ElementStatus.HIDDEN
          confidence_level := "low"
          notes := some "Status incerto - requer revisão" }

/-- The result dict built by `update_memory` (lines 157-169). -/
structure UpdateResult where
  element_type : String
  lifecycle : String
  previous_count : Nat
  current_count_visible : Nat
  effective_count : Nat
  previous_status : String
  current_status : String
  max_count_seen : Nat
  confidence_level : String
  notes : String
  contributes_to_progress : Bool
deriving Repr, DecidableEq

/-- Embeds `ElementMemoryService.update_memory` (lines 102-180): get-or-create,
mutate, save, and build the result dict. -/
def update_memory (store : Store) (project_id element_type : String)
    (current_count : Nat) (timestamp : String)
    (covering_elements : Option (List String) := none) : UpdateResult × Store :=
  let gc := get_or_create_memory store project_id element_type current_count timestamp
  let memory0 := gc.1
  let store1 := gc.2
  let memory := applyUpdate memory0 current_count timestamp covering_elements
  let store2 := saveMemory store1 memory
  ({ element_type := element_type
     lifecycle := memory.lifecycle
     previous_count := memory0.current_count
     current_count_visible := current_count
     effective_count := memory.current_count
     previous_status := memory0.current_status
     current_status := memory.current_status
     max_count_seen := memory.max_count_seen
     confidence_level := memory.confidence_level
     notes := memory.notes.getD ""
     contributes_to_progress := memory.current_status ≠ ElementStatus.REMOVED },
   store2)

/-- One `update_memory` call description: visible count, timestamp, covering hint. -/
structure UpdateCall where
  count : Nat
  timestamp : String
  covering : Option (List String) := none
deriving Repr

/-- A sequence of `update_memory` calls on the same `(project, element_type)`. -/
def runUpdates (store : Store) (project_id element_type : String)
    (calls : List UpdateCall) : Store :=
  calls.foldl
    (fun s c => (update_memory s project_id element_type c.count c.timestamp c.covering).2)
    store

/-- Invariant: every record stored under `memKey p t` carries the lifecycle
`classify t` (assigned once at creation, never rewritten). -/
def KeyInv (store : Store) (p t : String) : Prop :=
  ∀ r ∈ store, r.memory_id = memKey p t → r.lifecycle = ElementLifecycle.classify t


/-! ### Detection dicts

`process_analysis_with_memory` and the progress calculator receive plain
Python dicts; the keys they read (`element_type`, `count_visible`,
`effective_count`, `status`) are modelled as optional fields, and
`dict.get(key, default)` as `Option.getD`. -/

structure ElemDict where
  element_type : Option String := none
  count_visible : Option Nat := none
  effective_count : Option Nat := none
  status : Option String := none
deriving Repr, DecidableEq

/-- Python `dict[k] = v` on an insertion-ordered association list. -/
def dictAssign {α : Type} (m : List (String × α)) (k : String) (v : α) :
    List (String × α) :=
  match m with
  | [] => [(k, v)]
  | (k', v') :: rest => if k' = k then (k, v) :: rest else (k', v') :: dictAssign rest k v

/-- Python `defaultdict(int); d[k] += v`. -/
def dictAdd (m : List (String × Nat)) (k : String) (v : Nat) : List (String × Nat) :=
  match m with
  | [] => [(k, v)]
  | (k', v') :: rest => if k' = k then (k', v' + v) :: rest else (k', v') :: dictAdd rest k v

/-! ### `ElementMemoryService.get_project_memory` / `process_analysis_with_memory`
(element_memory_service.py, lines 182-283) -/

/-- Embeds `get_project_memory`: query records by project, build the dict of records by type. -/
def get_project_memory (store : Store) (project_id : String) :
    List (String × ProjectElementMemory) :=
  (store.filter (fun m => m.project_id == project_id)).foldl
    (fun d m => dictAssign d m.element_type m) []

/-- The grouping loop of `process_analysis_with_memory` (lines 210-220):
builds `detected_by_type` (dict assignment, later duplicates overwrite) and
`covering_types` (appended in input order). -/
def groupDetected (detected_elements : List ElemDict) :
    List (String × Nat) × List String :=
  detected_elements.foldl
    (fun acc elem =>
      let elem_type := strToLower (elem.element_type.getD "")
      let count_visible := elem.count_visible.getD 1
      let dbt := dictAssign acc.1 elem_type count_visible
      let cov :=
        if ["wall", "covering", "slab", "roof", "panel"].contains elem_type then
          acc.2 ++ [elem_type]
        else acc.2
      (dbt, cov))
    ([], [])

/-- The adjusted-element dicts appended by `process_analysis_with_memory`. -/
structure AdjustedElement where
  element_type : String
  count_visible : Nat
  effective_count : Nat
  status : String
  contributes_to_progress : Bool
deriving Repr, DecidableEq

structure AnalysisResult where
  adjusted_elements : List AdjustedElement
  memory_updates : List UpdateResult
  covering_elements_detected : List String
deriving Repr, DecidableEq

/-- Accumulator of the two update loops of `process_analysis_with_memory`:
adjusted elements, memory updates, and the threaded store. -/
abbrev AnalysisAcc := List AdjustedElement × List UpdateResult × Store

/-- Loop body for a type detected this round (lines 227-244). -/
def processDetectedStep (project_id timestamp : String) (covering_types : List String)
    (acc : AnalysisAcc) (p : String × Nat) : AnalysisAcc :=
  let u := update_memory acc.2.2 project_id p.1 p.2 timestamp
    (if p.2 == 0 then some covering_types else none)
  (acc.1 ++ [{ element_type := p.1
               count_visible := p.2
               effective_count := u.1.effective_count
               status := u.1.current_status
               contributes_to_progress := u.1.contributes_to_progress }],
   acc.2.1 ++ [u.1], u.2)

/-- Loop body for a type in memory but absent this round (lines 247-267). -/
def processMemoryStep (project_id timestamp : String) (covering_types : List String)
    (detected_by_type : List (String × Nat)) (acc : AnalysisAcc)
    (p : String × ProjectElementMemory) : AnalysisAcc :=
  if (detected_by_type.lookup p.1).isSome then acc
  else
    let u := update_memory acc.2.2 project_id p.1 0 timestamp (some covering_types)
    let adjusted :=
      if u.1.contributes_to_progress then
        acc.1 ++ [{ element_type := p.1
                    count_visible := 0
                    effective_count := u.1.effective_count
                    status := u.1.current_status
                    contributes_to_progress := true }]
      else acc.1
    (adjusted, acc.2.1 ++ [u.1], u.2)

/-- Embeds `ElementMemoryService.process_analysis_with_memory` (lines 193-283).
The Python `timestamp=None` default resolves to the wall clock; the caller's
effective timestamp is taken as a parameter here. -/
def process_analysis_with_memory (store : Store) (project_id : String)
    (detected_elements : List ElemDict) (timestamp : String) :
    AnalysisResult × Store :=
  let memory_dict := get_project_memory store project_id
  let g := groupDetected detected_elements
  let detected_by_type := g.1
  let covering_types := g.2
  let step1 := detected_by_type.foldl
    (processDetectedStep project_id timestamp covering_types) ([], [], store)
  let step2 := memory_dict.foldl
    (processMemoryStep project_id timestamp covering_types detected_by_type) step1
  ({ adjusted_elements := step2.1
     memory_updates := step2.2.1
     covering_elements_detected := covering_types },
   step2.2.2)

/-! ### `ProgressCalculator` (progress_calculator.py) -/

/-- Python `round(q, n)` (half-ulp ties differ: Python rounds ties to even,
`round` here rounds them up; no theorem below depends on a tie). -/
def roundTo (n : Nat) (q : ℚ) : ℚ := round (q * 10 ^ n) / 10 ^ n

structure CategoryProgress where
  built : Nat
  expected : Nat
  progress_percent : ℚ
deriving Repr, DecidableEq

/-- Embeds `compute_visual_built` (lines 163-191): per-type counts and total, using
`effective_count` when present, else 1. -/
def compute_visual_built (detected_elements : List ElemDict) :
    List (String × Nat) × Nat :=
  detected_elements.foldl
    (fun acc elem =>
      let element_type := strToLower (elem.element_type.getD "unknown")
      let count := elem.effective_count.getD 1
      (dictAdd acc.1 element_type count, acc.2 + count))
    ([], 0)

/-- Value `total_built`: the total count of `compute_visual_built`. -/
def total_built (detected_elements : List ElemDict) : Nat :=
  (compute_visual_built detected_elements).2

/-- Embeds the `expected_by_type` grouping (lines 86-89). -/
def expected_by_type (all_elements : List ElemDict) : List (String × Nat) :=
  all_elements.foldl
    (fun d e => dictAdd d (strToLower (e.element_type.getD "unknown")) 1) []

/-- Embeds the `built_by_type` grouping (lines 91-97). -/
def built_by_type (detected_elements : List ElemDict) : List (String × Nat) :=
  detected_elements.foldl
    (fun d e => dictAdd d (strToLower (e.element_type.getD "unknown")) (e.effective_count.getD 1)) []

/-- Embeds `total_built_from_categories` (lines 99-105): built counts summed over the
expected categories only. -/
def total_built_from_categories (detected_elements all_elements : List ElemDict) : Nat :=
  ((expected_by_type all_elements).map
    (fun p => ((built_by_type detected_elements).lookup p.1).getD 0)).sum

/-- The per-category breakdown built in the same loop (lines 100-113). -/
def categoryBreakdown (detected_elements all_elements : List ElemDict) :
    List (String × CategoryProgress) :=
  (expected_by_type all_elements).map (fun p =>
    let built_count := ((built_by_type detected_elements).lookup p.1).getD 0
    let progress_percent : ℚ :=
      if p.2 > 0 then (built_count : ℚ) / (p.2 : ℚ) * 100 else 0
    (p.1, { built := built_count
            expected := p.2
            progress_percent := roundTo 2 progress_percent }))

/-- Embeds `mapping_ratio` (line 116): mapped fraction of built volume, 0 when
nothing was built. -/
def mapping_ratio (detected_elements all_elements : List ElemDict) : ℚ :=
  if total_built detected_elements > 0 then
    (total_built_from_categories detected_elements all_elements : ℚ)
      / (total_built detected_elements : ℚ)
  else 0

/-- The progress-report dict; fields absent from a branch's dict are `none`. -/
structure ProgressMetrics where
  overall_progress : ℚ
  progress_by_category : Option (List (String × CategoryProgress)) := none
  total_built : Option Nat := none
  total_expected : Option Nat := none
  mapping_ratio : Option ℚ := none
  progress_mode : String
  detected_count : Nat
  expected_count : Option Nat := none
  message : Option String := none
deriving Repr, DecidableEq

/-- Embeds `ProgressCalculator.compute_progress_report` (lines 59-161): CASE 2
(weak matching, `mapping_ratio < 0.5`) versus CASE 3 (category based). -/
def compute_progress_report (detected_elements all_elements : List ElemDict) :
    ProgressMetrics :=
  let total_expected := all_elements.length
  let tb := total_built detected_elements
  let tbfc := total_built_from_categories detected_elements all_elements
  let ratio := mapping_ratio detected_elements all_elements
  if ratio < 1/2 then
    { overall_progress :=
        roundTo 2 (if total_expected > 0 then (tb : ℚ) / (total_expected : ℚ) * 100 else 0)
      progress_by_category := some
        [("elementos_detectados",
          { built := tb
            expected := total_expected
            progress_percent :=
              if total_expected > 0 then
                roundTo 2 ((tb : ℚ) / (total_expected : ℚ) * 100)
              else 0 })]
      total_built := some tb
      total_expected := some total_expected
      mapping_ratio := some (roundTo 3 ratio)
      progress_mode := "weak_matching"
      detected_count := detected_elements.length }
  else
    { overall_progress :=
        roundTo 2 (if total_expected > 0 then (tbfc : ℚ) / (total_expected : ℚ) * 100 else 0)
      progress_by_category := some (categoryBreakdown detected_elements all_elements)
      total_built := some tb
      total_expected := some total_expected
      mapping_ratio := some (roundTo 3 ratio)
      progress_mode := "category_based"
      detected_count := detected_elements.length }

/-- Embeds `ProgressCalculator.calculate_progress_metrics` (lines 20-57): CASE 1
(no BIM) short-circuit, else report on `adjusted_elements` when truthy. -/
def calculate_progress_metrics (detected_elements all_elements : List ElemDict)
    (adjusted_elements : Option (List ElemDict) := none) : ProgressMetrics :=
  if all_elements.isEmpty then
    { overall_progress := if detected_elements.isEmpty then 0 else 100
      progress_mode := "no_bim"
      detected_count := detected_elements.length
      expected_count := some 0
      message := some "Progresso baseado apenas em elementos detectados (sem modelo BIM)" }
  else
    let elements_to_use :=
      match adjusted_elements with
      | some a => if a.isEmpty then detected_elements else a
      | none => detected_elements
    compute_progress_report elements_to_use all_elements

/-! ### `GeometricValidator` (geometric_validator.py) -/

/-- Embeds `DetectedElement` (hallucination_mitigation.py, lines 43-54); only the
fields the validator reads are modelled. -/
structure DetectedElement where
  element_type : String
  confidence : String
  status : String
deriving Repr, DecidableEq

/-- An issue dict; `element_type` is a key only some rules set. -/
structure Issue where
  rule : String
  severity : String
  element_type : Option String := none
  message : String
  likely_hallucination : Bool
deriving Repr, DecidableEq

def STRUCTURAL_DEPENDENCIES : List (String × List String) :=
  [("beam", ["column", "wall"]), ("slab", ["beam", "wall", "column"])]

def REQUIRES_FOUNDATION : List String := ["column", "wall"]

def CONSTRUCTION_SEQUENCE : List (String × Nat) :=
  [("foundation", 1), ("footing", 1), ("pile", 1), ("column", 2), ("wall", 2),
   ("beam", 3), ("slab", 3), ("roof", 4), ("finishing", 5)]

/-- Embeds `_validate_structural_support` (lines 59-72). -/
def validateStructuralSupport (types_detected : List String) : List Issue :=
  STRUCTURAL_DEPENDENCIES.foldl
    (fun issues p =>
      if types_detected.contains p.1 && !(p.2.any types_detected.contains) then
        issues ++ [{ rule := "missing_structural_support"
                     severity := "HIGH"
                     element_type := some p.1
                     message := p.1 ++ " without support (" ++ String.intercalate ", " p.2 ++ ")"
                     likely_hallucination := true }]
      else issues)
    []

/-- Embeds `_validate_foundation` (lines 74-88); the issue dict has no
`element_type` key. -/
def validateFoundation (types_detected : List String) (strict_mode : Bool) : List Issue :=
  let has_vertical := REQUIRES_FOUNDATION.any types_detected.contains
  let has_foundation := ["foundation", "footing", "pile", "slab"].any types_detected.contains
  if has_vertical && !has_foundation then
    [{ rule := "missing_foundation"
       severity := if strict_mode then "HIGH" else "MEDIUM"
       message := "Vertical elements without foundation"
       likely_hallucination := false }]
  else []

/-- Embeds `status_by_type.setdefault(t, []).append(s)` on an association list. -/
def insertStatus (m : List (String × List String)) (t s : String) :
    List (String × List String) :=
  match m with
  | [] => [(t, [s])]
  | (k, ss) :: rest =>
      if k = t then (k, ss ++ [s]) :: rest else (k, ss) :: insertStatus rest t s

def statusByType (elements : List DetectedElement) : List (String × List String) :=
  elements.foldl (fun m e => insertStatus m (strToLower e.element_type) (strToLower e.status)) []

/-- Embeds `_validate_construction_sequence` (lines 90-113); its issue dicts carry no
`element_type` key. -/
def validateConstructionSequence (elements : List DetectedElement) : List Issue :=
  let sbt := statusByType elements
  sbt.foldl
    (fun issues p =>
      if p.2.contains "completed" then
        let current_order := (CONSTRUCTION_SEQUENCE.lookup p.1).getD 999
        issues ++ CONSTRUCTION_SEQUENCE.foldl
          (fun is q =>
            if q.2 < current_order then
              match sbt.lookup q.1 with
              | some earlier_statuses =>
                  if earlier_statuses.contains "not_started"
                      && !(earlier_statuses.contains "completed") then
                    is ++ [{ rule := "invalid_sequence"
                             severity := "HIGH"
                             message := p.1 ++ " completed but " ++ q.1 ++ " not started"
                             likely_hallucination := true }]
                  else is
              | none => is
            else is)
          []
      else issues)
    []

/-- The set comprehension of `_identify_suspicious` (lines 116-118):
`i["element_type"]` raises `KeyError` when the filtered issue has no such
key — modelled as the `Except.error` branch. -/
def suspiciousTypes : List Issue → Except String (List String)
  | [] => Except.ok []
  | i :: rest =>
      if i.severity == "HIGH" && i.likely_hallucination then
        match i.element_type with
        | none => Except.error "KeyError: element_type"
        | some t =>
            match suspiciousTypes rest with
            | Except.ok ts => Except.ok (t :: ts)
            | Except.error e => Except.error e
      else suspiciousTypes rest

structure ValidationResult where
  is_plausible : Bool
  issues : List Issue
  confidence_penalty : ℚ
  validated_elements : List DetectedElement
  suspicious_elements : List DetectedElement
deriving Repr, DecidableEq

/-- The three rule passes of `validate_elements` (lines 41-43). -/
def issuesOf (detected_elements : List DetectedElement) (strict_mode : Bool) : List Issue :=
  let types_detected := detected_elements.map (fun e => strToLower e.element_type)
  validateStructuralSupport types_detected
    ++ validateFoundation types_detected strict_mode
    ++ validateConstructionSequence detected_elements

def highCount (issues : List Issue) : Nat :=
  issues.countP (fun i => i.severity == "HIGH")

def mediumCount (issues : List Issue) : Nat :=
  issues.countP (fun i => i.severity == "MEDIUM")

/-- Embeds `GeometricValidator.validate_elements` (lines 28-57). -/
def validate_elements (detected_elements : List DetectedElement)
    (strict_mode : Bool := false) : Except String ValidationResult :=
  if detected_elements.isEmpty then
    Except.ok { is_plausible := true, issues := [], confidence_penalty := 0,
                validated_elements := [], suspicious_elements := [] }
  else
    let issues := issuesOf detected_elements strict_mode
    let high_severity := highCount issues
    let confidence_penalty : ℚ :=
      min ((high_severity : ℚ) * (15/100) + (mediumCount issues : ℚ) * (5/100)) (1/2)
    match suspiciousTypes issues with
    | Except.error e => Except.error e
    | Except.ok sus_types =>
        let suspicious := detected_elements.filter (fun e =>
          sus_types.contains (strToLower e.element_type)
            && (e.confidence == "MEDIUM" || e.confidence == "LOW"))
        let validated := detected_elements.filter (fun e => !(suspicious.contains e))
        Except.ok { is_plausible := high_severity == 0
                    issues := issues
                    confidence_penalty := confidence_penalty
                    validated_elements := validated
                    suspicious_elements := suspicious }

/-! ### Basic lemmas about the store and `applyUpdate` -/

theorem getMemory_some_id {store : Store} {k : String} {m : ProjectElementMemory}
    (h : getMemory store k = some m) : m.memory_id = k := by
  have hp := List.find?_some h
  exact eq_of_beq hp

theorem getMemory_mem {store : Store} {k : String} {m : ProjectElementMemory}
    (h : getMemory store k = some m) : m ∈ store :=
  List.mem_of_find?_eq_some h

theorem find?_map_replace (store : Store) (m : ProjectElementMemory)
    (h : store.any (fun r => r.memory_id == m.memory_id) = true) :
    (store.map (fun r => if r.memory_id == m.memory_id then m else r)).find?
      (fun r => r.memory_id == m.memory_id) = some m := by
  induction store with
  | nil => simp at h
  | cons a l ih =>
      by_cases hid : (a.memory_id == m.memory_id) = true
      · simp [List.find?, hid]
      · have h' : l.any (fun r => r.memory_id == m.memory_id) = true := by
          simp only [List.any_cons, hid, Bool.false_or] at h
          exact h
        have hf : (a.memory_id == m.memory_id) = false := by
          cases hb : (a.memory_id == m.memory_id) with
          | true => exact absurd hb hid
          | false => rfl
        have hhead : (if (a.memory_id == m.memory_id) = true then m else a) = a :=
          if_neg hid
        simp only [List.map_cons]
        rw [hhead]
        simp only [List.find?, hf]
        exact ih h'

theorem getMemory_saveMemory_self (store : Store) (m : ProjectElementMemory) :
    getMemory (saveMemory store m) m.memory_id = some m := by
  unfold getMemory saveMemory
  by_cases h : store.any (fun r => r.memory_id == m.memory_id) = true
  · rw [if_pos h]
    exact find?_map_replace store m h
  · rw [if_neg h]
    have hn : store.find? (fun r => r.memory_id == m.memory_id) = none := by
      rw [List.find?_eq_none]
      intro x hx hpx
      exact h (List.any_eq_true.mpr ⟨x, hx, hpx⟩)
    rw [List.find?_append, hn]
    simp [List.find?]

theorem mem_saveMemory {store : Store} {m x : ProjectElementMemory}
    (h : x ∈ saveMemory store m) : x = m ∨ x ∈ store := by
  unfold saveMemory at h
  by_cases ha : store.any (fun r => r.memory_id == m.memory_id) = true
  · rw [if_pos ha] at h
    rcases List.mem_map.mp h with ⟨y, hy, hxy⟩
    by_cases hid : (y.memory_id == m.memory_id) = true
    · left; rw [if_pos hid] at hxy; exact hxy.symm
    · right; rw [if_neg hid] at hxy; exact hxy ▸ hy
  · rw [if_neg ha] at h
    rcases List.mem_append.mp h with hl | hr
    · right; exact hl
    · left; simpa using hr

theorem applyUpdate_memory_id (m : ProjectElementMemory) (c : Nat) (ts : String)
    (cov : Option (List String)) : (applyUpdate m c ts cov).memory_id = m.memory_id := by
  simp only [applyUpdate]
  repeat' split
  all_goals rfl

theorem applyUpdate_lifecycle (m : ProjectElementMemory) (c : Nat) (ts : String)
    (cov : Option (List String)) : (applyUpdate m c ts cov).lifecycle = m.lifecycle := by
  simp only [applyUpdate]
  repeat' split
  all_goals rfl

theorem applyUpdate_max_count (m : ProjectElementMemory) (c : Nat) (ts : String)
    (cov : Option (List String)) :
    m.max_count_seen ≤ (applyUpdate m c ts cov).max_count_seen := by
  simp only [applyUpdate]
  repeat' split
  all_goals first
  | exact le_max_left _ _
  | exact le_refl _

/-- After any single update, the record is `hidden` only when the round's
visible count was 0 and the record's lifecycle is not `temporary`. -/
theorem applyUpdate_hidden {m : ProjectElementMemory} {c : Nat} {ts : String}
    {cov : Option (List String)}
    (h : (applyUpdate m c ts cov).current_status = ElementStatus.HIDDEN) :
    c = 0 ∧ m.lifecycle ≠ ElementLifecycle.TEMPORARY := by
  by_cases hc : c > 0
  · exfalso
    simp [applyUpdate, hc, ElementStatus.VISIBLE, ElementStatus.HIDDEN] at h
  · refine ⟨Nat.eq_zero_of_not_pos hc, fun ht => ?_⟩
    simp [applyUpdate, hc, ht, ElementLifecycle.PERMANENT, ElementLifecycle.TEMPORARY,
          ElementStatus.HIDDEN, ElementStatus.REMOVED] at h

theorem get_or_create_found {store : Store} {p t : String} {c : Nat} {ts : String}
    {m : ProjectElementMemory} (h : getMemory store (memKey p t) = some m) :
    get_or_create_memory store p t c ts = (m, store) := by
  unfold get_or_create_memory
  rw [h]

theorem get_or_create_not_found {store : Store} {p t : String} {c : Nat} {ts : String}
    (h : getMemory store (memKey p t) = none) :
    get_or_create_memory store p t c ts =
      (newMemory p t c ts, saveMemory store (newMemory p t c ts)) := by
  unfold get_or_create_memory
  rw [h]

theorem get_or_create_id (store : Store) (p t : String) (c : Nat) (ts : String) :
    (get_or_create_memory store p t c ts).1.memory_id = memKey p t := by
  cases hg : getMemory store (memKey p t) with
  | some m =>
      rw [get_or_create_found hg]
      exact getMemory_some_id hg
  | none =>
      rw [get_or_create_not_found hg]
      rfl

/-- The record stored by `update_memory` under the `(project, type)` key is
exactly the mutated record. -/
theorem getMemory_update (store : Store) (p t : String) (c : Nat) (ts : String)
    (cov : Option (List String)) :
    getMemory (update_memory store p t c ts cov).2 (memKey p t) =
      some (applyUpdate (get_or_create_memory store p t c ts).1 c ts cov) := by
  have h2 : (update_memory store p t c ts cov).2 =
      saveMemory (get_or_create_memory store p t c ts).2
        (applyUpdate (get_or_create_memory store p t c ts).1 c ts cov) := rfl
  rw [h2]
  have hs := getMemory_saveMemory_self (get_or_create_memory store p t c ts).2
    (applyUpdate (get_or_create_memory store p t c ts).1 c ts cov)
  rw [applyUpdate_memory_id, get_or_create_id] at hs
  exact hs

theorem get_or_create_lifecycle {store : Store} {p t : String} {c : Nat} {ts : String}
    (h : KeyInv store p t) :
    (get_or_create_memory store p t c ts).1.lifecycle = ElementLifecycle.classify t := by
  cases hg : getMemory store (memKey p t) with
  | some m =>
      rw [get_or_create_found hg]
      exact h m (getMemory_mem hg) (getMemory_some_id hg)
  | none =>
      rw [get_or_create_not_found hg]
      rfl

theorem KeyInv_update {store : Store} {p t : String} (h : KeyInv store p t)
    (c : Nat) (ts : String) (cov : Option (List String)) :
    KeyInv (update_memory store p t c ts cov).2 p t := by
  intro r hr hrid
  have h2 : (update_memory store p t c ts cov).2 =
      saveMemory (get_or_create_memory store p t c ts).2
        (applyUpdate (get_or_create_memory store p t c ts).1 c ts cov) := rfl
  rw [h2] at hr
  rcases mem_saveMemory hr with rfl | hr'
  · rw [applyUpdate_lifecycle]
    exact get_or_create_lifecycle h
  · cases hg : getMemory store (memKey p t) with
    | some m =>
        rw [get_or_create_found hg] at hr'
        exact h r hr' hrid
    | none =>
        rw [get_or_create_not_found hg] at hr'
        rcases mem_saveMemory hr' with rfl | hr2
        · rfl
        · exact h r hr2 hrid

theorem KeyInv_runUpdates (store : Store) (p t : String)
    (h : KeyInv store p t) (calls : List UpdateCall) :
    KeyInv (runUpdates store p t calls) p t := by
  induction calls generalizing store with
  | nil => exact h
  | cons c cs ih => exact ih _ (KeyInv_update h c.count c.timestamp c.covering)

theorem KeyInv_nil (p t : String) : KeyInv [] p t := by
  intro r hr
  exact absurd hr (List.not_mem_nil r)

theorem classify_cases (t : String) :
    ElementLifecycle.classify t = ElementLifecycle.PERMANENT ∨
    ElementLifecycle.classify t = ElementLifecycle.TEMPORARY ∨
    ElementLifecycle.classify t = ElementLifecycle.FINISHING ∨
    ElementLifecycle.classify t = ElementLifecycle.UNKNOWN := by
  simp only [ElementLifecycle.classify]
  split_ifs <;> simp

theorem runUpdates_append (store : Store) (p t : String)
    (calls : List UpdateCall) (c : UpdateCall) :
    runUpdates store p t (calls ++ [c]) =
      (update_memory (runUpdates store p t calls) p t c.count c.timestamp c.covering).2 := by
  unfold runUpdates
  rw [List.foldl_append]
  rfl

theorem getMemory_nil (k : String) : getMemory [] k = none := rfl

/-- The result dict of `update_memory`, expressed through the record before
and after the mutation block. -/
theorem update_memory_fst (store : Store) (p t : String) (c : Nat) (ts : String)
    (cov : Option (List String)) :
    (update_memory store p t c ts cov).1 =
      { element_type := t
        lifecycle := (applyUpdate (get_or_create_memory store p t c ts).1 c ts cov).lifecycle
        previous_count := (get_or_create_memory store p t c ts).1.current_count
        current_count_visible := c
        effective_count := (applyUpdate (get_or_create_memory store p t c ts).1 c ts cov).current_count
        previous_status := (get_or_create_memory store p t c ts).1.current_status
        current_status := (applyUpdate (get_or_create_memory store p t c ts).1 c ts cov).current_status
        max_count_seen := (applyUpdate (get_or_create_memory store p t c ts).1 c ts cov).max_count_seen
        confidence_level := (applyUpdate (get_or_create_memory store p t c ts).1 c ts cov).confidence_level
        notes := ((applyUpdate (get_or_create_memory store p t c ts).1 c ts cov).notes).getD ""
        contributes_to_progress :=
          decide ((applyUpdate (get_or_create_memory store p t c ts).1 c ts cov).current_status
            ≠ ElementStatus.REMOVED) } := rfl

/-- C2 counterexample: a finishing-lifecycle record ("door", classified
`finishing`) updated with count 2 and then count 0 ends with
`current_status = hidden`, although its lifecycle is neither `permanent`
nor `unknown`. -/
theorem finishing_record_ends_hidden :
    (getMemory (runUpdates [] "p" "door" [⟨2, "t1", none⟩, ⟨0, "t2", none⟩])
        (memKey "p" "door")).map (fun r => (r.current_status, r.lifecycle)) =
      some (ElementStatus.HIDDEN, ElementLifecycle.FINISHING) ∧
    ElementLifecycle.FINISHING ≠ ElementLifecycle.PERMANENT ∧
    ElementLifecycle.FINISHING ≠ ElementLifecycle.UNKNOWN := by
  refine ⟨by decide, by decide, by decide⟩

/-- C2 (amended): after any non-empty sequence of `update_memory` calls on a
`(project, element_type)` record starting from an empty store, the record has
`current_status = hidden` only when its lifecycle is permanent, finishing or
unknown (never temporary) and the last call's visible count was 0. -/
theorem hidden_status_invariant (p t : String) (calls : List UpdateCall)
    (c : UpdateCall) (r : ProjectElementMemory)
    (hfind : getMemory (runUpdates [] p t (calls ++ [c])) (memKey p t) = some r)
    (hhid : r.current_status = ElementStatus.HIDDEN) :
    (r.lifecycle = ElementLifecycle.PERMANENT ∨
     r.lifecycle = ElementLifecycle.FINISHING ∨
     r.lifecycle = ElementLifecycle.UNKNOWN) ∧ c.count = 0 := by
  rw [runUpdates_append, getMemory_update] at hfind
  have hr : r = applyUpdate
      (get_or_create_memory (runUpdates [] p t calls) p t c.count c.timestamp).1
      c.count c.timestamp c.covering := (Option.some.inj hfind).symm
  have hl : (get_or_create_memory (runUpdates [] p t calls) p t c.count c.timestamp).1.lifecycle
      = ElementLifecycle.classify t :=
    get_or_create_lifecycle (KeyInv_runUpdates [] p t (KeyInv_nil p t) calls)
  have hrl : r.lifecycle = ElementLifecycle.classify t := by
    rw [hr, applyUpdate_lifecycle, hl]
  rw [hr] at hhid
  obtain ⟨hc0, hnt⟩ := applyUpdate_hidden hhid
  rw [hl] at hnt
  refine ⟨?_, hc0⟩
  rcases classify_cases t with h1 | h2 | h3 | h4
  · exact Or.inl (hrl.trans h1)
  · exact absurd h2 hnt
  · exact Or.inr (Or.inl (hrl.trans h3))
  · exact Or.inr (Or.inr (hrl.trans h4))

/-- C2 witness: the amended invariant applied to a concrete one-call run on a
permanent element type. -/
theorem hidden_status_invariant_witness :
    ((ProjectElementMemory.mk "p#column" "p" "column" "permanent" "t" "t" 0 0
        "hidden" 1 1 "medium" [] (some "Não visível mas estrutura permanente mantida")).lifecycle
        = ElementLifecycle.PERMANENT ∨
     (ProjectElementMemory.mk "p#column" "p" "column" "permanent" "t" "t" 0 0
        "hidden" 1 1 "medium" [] (some "Não visível mas estrutura permanente mantida")).lifecycle
        = ElementLifecycle.FINISHING ∨
     (ProjectElementMemory.mk "p#column" "p" "column" "permanent" "t" "t" 0 0
        "hidden" 1 1 "medium" [] (some "Não visível mas estrutura permanente mantida")).lifecycle
        = ElementLifecycle.UNKNOWN) ∧ (UpdateCall.mk 0 "t" none).count = 0 :=
  hidden_status_invariant "p" "column" [] ⟨0, "t", none⟩ _ (by decide) (by decide)

/-- C3: a permanent-lifecycle element seen with count 3 and then not seen
(count 0) keeps effective count 3, turns `hidden`, and still contributes to
progress. -/
theorem hidden_permanent_persistence (project etype ts1 ts2 : String)
    (h : ElementLifecycle.classify etype = ElementLifecycle.PERMANENT) :
    (update_memory (update_memory [] project etype 3 ts1 none).2
        project etype 0 ts2 none).1.effective_count = 3 ∧
    (update_memory (update_memory [] project etype 3 ts1 none).2
        project etype 0 ts2 none).1.current_status = ElementStatus.HIDDEN ∧
    (update_memory (update_memory [] project etype 3 ts1 none).2
        project etype 0 ts2 none).1.contributes_to_progress = true := by
  have hm1 : getMemory (update_memory [] project etype 3 ts1 none).2 (memKey project etype)
      = some (applyUpdate (newMemory project etype 3 ts1) 3 ts1 none) := by
    rw [getMemory_update, get_or_create_not_found (getMemory_nil _)]
  rw [update_memory_fst, get_or_create_found hm1]
  refine ⟨?_, ?_, ?_⟩ <;>
    simp [applyUpdate, newMemory, h, ElementLifecycle.PERMANENT, ElementLifecycle.TEMPORARY,
      ElementStatus.VISIBLE, ElementStatus.HIDDEN, ElementStatus.REMOVED]

/-- C3 witness: the persistence property at element type "column". -/
theorem hidden_permanent_persistence_witness :
    (update_memory (update_memory [] "p" "column" 3 "t1" none).2
        "p" "column" 0 "t2" none).1.effective_count = 3 ∧
    (update_memory (update_memory [] "p" "column" 3 "t1" none).2
        "p" "column" 0 "t2" none).1.current_status = ElementStatus.HIDDEN ∧
    (update_memory (update_memory [] "p" "column" 3 "t1" none).2
        "p" "column" 0 "t2" none).1.contributes_to_progress = true :=
  hidden_permanent_persistence "p" "column" "t1" "t2" (by decide)

/-- C4: a temporary-lifecycle element seen with count 2 and then not seen
(count 0) is zeroed: effective count 0, status `removed`, and it no longer
contributes to progress. -/
theorem temporary_removal_zeroing (project etype ts1 ts2 : String)
    (h : ElementLifecycle.classify etype = ElementLifecycle.TEMPORARY) :
    (update_memory (update_memory [] project etype 2 ts1 none).2
        project etype 0 ts2 none).1.effective_count = 0 ∧
    (update_memory (update_memory [] project etype 2 ts1 none).2
        project etype 0 ts2 none).1.current_status = ElementStatus.REMOVED ∧
    (update_memory (update_memory [] project etype 2 ts1 none).2
        project etype 0 ts2 none).1.contributes_to_progress = false := by
  have hm1 : getMemory (update_memory [] project etype 2 ts1 none).2 (memKey project etype)
      = some (applyUpdate (newMemory project etype 2 ts1) 2 ts1 none) := by
    rw [getMemory_update, get_or_create_not_found (getMemory_nil _)]
  rw [update_memory_fst, get_or_create_found hm1]
  refine ⟨?_, ?_, ?_⟩ <;>
    simp [applyUpdate, newMemory, h, ElementLifecycle.PERMANENT, ElementLifecycle.TEMPORARY,
      ElementStatus.VISIBLE, ElementStatus.HIDDEN, ElementStatus.REMOVED]

/-- C4 witness: the zeroing property at element type "scaffold". -/
theorem temporary_removal_zeroing_witness :
    (update_memory (update_memory [] "p" "scaffold" 2 "t1" none).2
        "p" "scaffold" 0 "t2" none).1.effective_count = 0 ∧
    (update_memory (update_memory [] "p" "scaffold" 2 "t1" none).2
        "p" "scaffold" 0 "t2" none).1.current_status = ElementStatus.REMOVED ∧
    (update_memory (update_memory [] "p" "scaffold" 2 "t1" none).2
        "p" "scaffold" 0 "t2" none).1.contributes_to_progress = false :=
  temporary_removal_zeroing "p" "scaffold" "t1" "t2" (by decide)

/-- C8: along any sequence of `update_memory` calls on the same
`(project, element_type)` record, `max_count_seen` after update N is ≥ its
value after update N−1. -/
theorem max_count_seen_monotone (p t : String) (calls : List UpdateCall)
    (c : UpdateCall) (r r' : ProjectElementMemory)
    (h1 : getMemory (runUpdates [] p t calls) (memKey p t) = some r)
    (h2 : getMemory (runUpdates [] p t (calls ++ [c])) (memKey p t) = some r') :
    r.max_count_seen ≤ r'.max_count_seen := by
  rw [runUpdates_append, getMemory_update, get_or_create_found h1] at h2
  have hr' : r' = applyUpdate r c.count c.timestamp c.covering :=
    (Option.some.inj h2).symm
  rw [hr']
  exact applyUpdate_max_count r c.count c.timestamp c.covering

/-- C8 witness: counts 1 then 5 on a fresh "wall" record give
`max_count_seen` 1 then 5. -/
theorem max_count_seen_monotone_witness :
    (ProjectElementMemory.mk "p#wall" "p" "wall" "permanent" "t1" "t1" 1 1
        "visible" 2 0 "medium" [] none).max_count_seen ≤
      (ProjectElementMemory.mk "p#wall" "p" "wall" "permanent" "t1" "t2" 5 5
        "visible" 3 0 "medium" [] none).max_count_seen :=
  max_count_seen_monotone "p" "wall" [⟨1, "t1", none⟩] ⟨5, "t2", none⟩ _ _
    (by decide) (by decide)

/-- C10: a first `update_memory` call on a record that does not yet exist,
with a positive visible count, stores `times_detected = 2` (creation seeds 1
and the visible branch of the same call increments it again). -/
theorem first_detection_times_detected (store : Store) (p t : String) (c : Nat)
    (ts : String) (cov : Option (List String))
    (hnone : getMemory store (memKey p t) = none) (hc : 0 < c) :
    (getMemory (update_memory store p t c ts cov).2 (memKey p t)).map
      (fun r => r.times_detected) = some 2 := by
  rw [getMemory_update, get_or_create_not_found hnone]
  simp [applyUpdate, hc, newMemory]

/-- C10 witness: the seeding behaviour on an empty store at type "wall". -/
theorem first_detection_times_detected_witness :
    (getMemory (update_memory [] "p" "wall" 1 "t" none).2 (memKey "p" "wall")).map
      (fun r => r.times_detected) = some 2 :=
  first_detection_times_detected [] "p" "wall" 1 "t" none (getMemory_nil _) (by decide)

/-- C1: `validate_elements` is NOT total on construction-sequence violations:
a completed "column" together with a not-started "foundation" triggers an
`invalid_sequence` issue, whose dict carries no `element_type` key, and
`_identify_suspicious` then raises `KeyError` instead of returning a result. -/
theorem sequence_violation_raises_keyerror :
    validate_elements
        [⟨"column", "HIGH", "completed"⟩, ⟨"foundation", "HIGH", "not_started"⟩] false =
      Except.error "KeyError: element_type" := rfl

/-- C9: whenever `validate_elements` returns a result, its confidence penalty
is `min(0.15·#HIGH + 0.05·#MEDIUM, 0.5)` over the returned issues, and
`is_plausible` holds iff there are no HIGH issues. -/
theorem validate_elements_eq (elems : List DetectedElement) (strict : Bool)
    (he : elems.isEmpty = false) :
    validate_elements elems strict =
      match suspiciousTypes (issuesOf elems strict) with
      | Except.error e => Except.error e
      | Except.ok sus_types =>
          Except.ok
            { is_plausible := highCount (issuesOf elems strict) == 0
              issues := issuesOf elems strict
              confidence_penalty :=
                min ((highCount (issuesOf elems strict) : ℚ) * (15/100) +
                  (mediumCount (issuesOf elems strict) : ℚ) * (5/100)) (1/2)
              validated_elements := elems.filter (fun e =>
                !((elems.filter (fun e => sus_types.contains (strToLower e.element_type)
                    && (e.confidence == "MEDIUM" || e.confidence == "LOW"))).contains e))
              suspicious_elements := elems.filter (fun e =>
                sus_types.contains (strToLower e.element_type)
                  && (e.confidence == "MEDIUM" || e.confidence == "LOW")) } := by
  unfold validate_elements
  rw [if_neg (by simp [he])]

theorem confidence_penalty_formula (elems : List DetectedElement) (strict : Bool)
    (r : ValidationResult) (h : validate_elements elems strict = Except.ok r) :
    r.confidence_penalty =
      min ((highCount r.issues : ℚ) * (15/100) + (mediumCount r.issues : ℚ) * (5/100)) (1/2) ∧
    (r.is_plausible = true ↔ highCount r.issues = 0) := by
  by_cases he : elems.isEmpty
  · unfold validate_elements at h
    rw [if_pos he] at h
    obtain rfl := Except.ok.inj h
    constructor
    · show (0 : ℚ) = min ((highCount ([] : List Issue) : ℚ) * (15/100) +
        (mediumCount ([] : List Issue) : ℚ) * (5/100)) (1/2)
      have h0 : highCount ([] : List Issue) = 0 := rfl
      have h0m : mediumCount ([] : List Issue) = 0 := rfl
      rw [h0, h0m]
      norm_num [min_def]
    · show (true = true) ↔ highCount ([] : List Issue) = 0
      have h0 : highCount ([] : List Issue) = 0 := rfl
      simp [h0]
  · rw [validate_elements_eq elems strict (by simpa using he)] at h
    cases hs : suspiciousTypes (issuesOf elems strict) with
    | error e =>
        rw [hs] at h
        exact absurd h (by simp)
    | ok ts =>
        rw [hs] at h
        obtain rfl := Except.ok.inj h
        exact ⟨rfl, by simp⟩

/-- C9 witness: the formula instantiated at a lone MEDIUM-confidence completed
beam (one HIGH structural-support issue, no sequence issue). -/
theorem confidence_penalty_formula_witness :
    (3/20 : ℚ) =
      min ((highCount [Issue.mk "missing_structural_support" "HIGH" (some "beam")
              "beam without support (column, wall)" true] : ℚ) * (15/100) +
           (mediumCount [Issue.mk "missing_structural_support" "HIGH" (some "beam")
              "beam without support (column, wall)" true] : ℚ) * (5/100)) (1/2) ∧
    ((false : Bool) = true ↔
      highCount [Issue.mk "missing_structural_support" "HIGH" (some "beam")
        "beam without support (column, wall)" true] = 0) := by
  have hq : min
      ((highCount (issuesOf [(⟨"beam", "MEDIUM", "completed"⟩ : DetectedElement)] false) : ℚ)
        * (15/100) +
       (mediumCount (issuesOf [(⟨"beam", "MEDIUM", "completed"⟩ : DetectedElement)] false) : ℚ)
        * (5/100)) (1/2) = 3/20 := by
    rw [show highCount (issuesOf [(⟨"beam", "MEDIUM", "completed"⟩ : DetectedElement)] false)
          = 1 from rfl,
        show mediumCount (issuesOf [(⟨"beam", "MEDIUM", "completed"⟩ : DetectedElement)] false)
          = 0 from rfl]
    norm_num [min_def]
  exact confidence_penalty_formula [⟨"beam", "MEDIUM", "completed"⟩] false
    (ValidationResult.mk false
      [Issue.mk "missing_structural_support" "HIGH" (some "beam")
        "beam without support (column, wall)" true]
      (3/20) [] [⟨"beam", "MEDIUM", "completed"⟩])
    (congrArg (fun q => Except.ok (ValidationResult.mk false
      [Issue.mk "missing_structural_support" "HIGH" (some "beam")
        "beam without support (column, wall)" true]
      q [] [⟨"beam", "MEDIUM", "completed"⟩])) hq)

/-- C5: the weak-matching boundary is inclusive on the category side: a
mapping ratio of exactly 1/2 yields mode "category_based", and
"weak_matching" occurs only for ratios strictly below 1/2. -/
theorem mode_boundary_inclusive (detected allE : List ElemDict) (_hne : allE ≠ []) :
    (mapping_ratio detected allE = 1/2 →
      (compute_progress_report detected allE).progress_mode = "category_based") ∧
    ((compute_progress_report detected allE).progress_mode = "weak_matching" →
      mapping_ratio detected allE < 1/2) := by
  by_cases hr : mapping_ratio detected allE < 1/2
  · refine ⟨fun heq => ?_, fun _ => hr⟩
    rw [heq] at hr
    exact absurd hr (lt_irrefl _)
  · constructor
    · intro _
      simp only [compute_progress_report]
      rw [if_neg hr]
    · intro hmode
      simp only [compute_progress_report] at hmode
      rw [if_neg hr] at hmode
      have h2 : ("category_based" : String) = "weak_matching" := hmode
      exact absurd h2 (by decide)

/-- C5 witness: detections {wall, xyz} against expected {wall} give
mapping ratio exactly 1/2 and mode "category_based". -/
theorem mode_boundary_inclusive_witness :
    mapping_ratio [⟨some "wall", none, none, none⟩, ⟨some "xyz", none, none, none⟩]
        [⟨some "wall", none, none, none⟩] = 1/2 ∧
    (compute_progress_report [⟨some "wall", none, none, none⟩, ⟨some "xyz", none, none, none⟩]
        [⟨some "wall", none, none, none⟩]).progress_mode = "category_based" := by
  have h1 : total_built [⟨some "wall", none, none, none⟩, ⟨some "xyz", none, none, none⟩] = 2 := rfl
  have h2 : total_built_from_categories
      [⟨some "wall", none, none, none⟩, ⟨some "xyz", none, none, none⟩]
      [⟨some "wall", none, none, none⟩] = 1 := rfl
  have hr : mapping_ratio [⟨some "wall", none, none, none⟩, ⟨some "xyz", none, none, none⟩]
      [⟨some "wall", none, none, none⟩] = 1/2 := by
    rw [mapping_ratio, h1, h2]
    norm_num
  exact ⟨hr, (mode_boundary_inclusive _ _ (by decide)).1 hr⟩

/-- C6: with an empty expected (BIM) set, `calculate_progress_metrics`
returns 100 when anything was detected and 0 otherwise, with mode "no_bim"
and no per-category breakdown. -/
theorem no_bim_case (detected : List ElemDict) (adjusted : Option (List ElemDict)) :
    (calculate_progress_metrics detected [] adjusted).overall_progress =
      (if detected.isEmpty then 0 else 100) ∧
    (calculate_progress_metrics detected [] adjusted).progress_mode = "no_bim" ∧
    (calculate_progress_metrics detected [] adjusted).progress_by_category = none := by
  refine ⟨?_, ?_, ?_⟩ <;> simp [calculate_progress_metrics]

/-- C7 counterexample: a detected element with no `element_type` field is
processed normally under the default type `""` (classified `unknown`) —
no per-element validation error is produced. -/
theorem missing_element_type_processed_counterexample :
    (process_analysis_with_memory [] "p" [{ count_visible := some 2 }] "t").1 =
      { adjusted_elements := [{ element_type := ""
                                count_visible := 2
                                effective_count := 2
                                status := ElementStatus.VISIBLE
                                contributes_to_progress := true }]
        memory_updates := [{ element_type := ""
                             lifecycle := ElementLifecycle.UNKNOWN
                             previous_count := 2
                             current_count_visible := 2
                             effective_count := 2
                             previous_status := ElementStatus.VISIBLE
                             current_status := ElementStatus.VISIBLE
                             max_count_seen := 2
                             confidence_level := "medium"
                             notes := ""
                             contributes_to_progress := true }]
        covering_elements_detected := [] } := by decide

/-- The memory loop of `process_analysis_with_memory` only appends to the
`memory_updates` accumulator, so its head is preserved. -/
theorem processMemoryStep_foldl_head (pid ts : String) (cov : List String)
    (dbt : List (String × Nat)) (l : List (String × ProjectElementMemory))
    (acc : AnalysisAcc) (u : UpdateResult) (h : acc.2.1.head? = some u) :
    ((l.foldl (processMemoryStep pid ts cov dbt) acc).2.1).head? = some u := by
  induction l generalizing acc with
  | nil => exact h
  | cons q qs ih =>
      apply ih
      unfold processMemoryStep
      split
      · exact h
      · simp [List.head?_append, h]

/-- C7 (amended): an element missing `element_type` is not rejected with a
validation error; it is silently grouped and processed under the default
type `""`, producing a normal memory update for that type. -/
theorem missing_element_type_processed (store : Store) (project ts : String)
    (d : ElemDict) (hmiss : d.element_type = none) :
    ((process_analysis_with_memory store project [d] ts).1.memory_updates).head?.map
      (fun u => u.element_type) = some "" := by
  obtain ⟨et, cv, ec, st⟩ := d
  have het : et = none := hmiss
  subst het
  have hg : groupDetected [⟨none, cv, ec, st⟩] = ([("", cv.getD 1)], []) := rfl
  simp only [process_analysis_with_memory, hg]
  have hstep1 : ((List.foldl (processDetectedStep project ts []) ([], [], store)
      [("", cv.getD 1)]).2.1).head? =
      some (update_memory store project "" (cv.getD 1) ts
        (if (cv.getD 1) == 0 then some [] else none)).1 := by
    simp [processDetectedStep]
  rw [processMemoryStep_foldl_head project ts [] [("", cv.getD 1)]
    (get_project_memory store project) _ _ hstep1]
  rfl

/-- C7 witness: the amended behaviour on an empty store with a count-2
detection that has no `element_type`. -/
theorem missing_element_type_processed_witness :
    ((process_analysis_with_memory [] "p" [{ count_visible := some 2 }] "t").1.memory_updates).head?.map
      (fun u => u.element_type) = some "" :=
  missing_element_type_processed [] "p" "t" { count_visible := some 2 } rfl

end MssAi
